import Mathlib

/-!
Verification development for the Tata car advisor repository.

The Python sources (`tools.py`, `database.py`, `agents.py`) are shallowly
embedded below: pure functions become Lean functions over `ℚ`/`ℤ`/`String`,
Python dicts become association lists, JSON payloads become a `Json`
inductive plus a serializer, and the two provider-driven agent loops become
fuel-bounded recursions over a step-indexed provider behaviour.  Decimal
constants from the source are written `mkRat a 100` (exact decimals; the
Python floats at play are used only for comparisons on 2-decimal values).
String renderings of numbers (Python f-string/float `repr`) are abstracted
by `qstr`; no theorem below inspects a rendered number.
-/

/-! ## Python string primitives -/

/-- Substring occurrence on character lists: `seqContains hay sub` is the
Python `sub in hay` test (case-sensitive). -/
def seqContains : List Char → List Char → Bool
  | [], sub => sub.isEmpty
  | hay@(_ :: t), sub => List.isPrefixOf sub hay || seqContains t sub

/-- Characters of a string, lower-cased (Python `s.lower()`, ASCII data). -/
def lowerData (s : String) : List Char := s.data.map Char.toLower

/-- Python `s.lower()` as a `String`. -/
def pyLower (s : String) : String := String.mk (lowerData s)

/-- Python `s.upper()` as a `String`. -/
def pyUpper (s : String) : String := String.mk (s.data.map Char.toUpper)

/-- Python `needle in hay` (case-sensitive substring test). -/
def pyIn (needle hay : String) : Bool := seqContains hay.data needle.data

/-- Case-insensitive substring test: `needle.lower() in hay.lower()`. -/
def pyInCI (needle hay : String) : Bool := seqContains (lowerData hay) (lowerData needle)

/-- A single-quote character as a string (used by Python `repr` of strings). -/
def squo : String := "\x27"

/-- Python `str(list_of_strings)`, e.g. `['a', 'b']`. -/
def pyListRepr (items : List String) : String :=
  "[" ++ String.intercalate ", " (items.map (fun s => squo ++ s ++ squo)) ++ "]"

/-- Python `round()` on an exact rational: round half to even. -/
def pyRound (q : ℚ) : ℤ :=
  if q - q.floor < mkRat 1 2 then q.floor
  else if q - q.floor > mkRat 1 2 then q.floor + 1
  else if q.floor % 2 = 0 then q.floor else q.floor + 1

/-- Rendering of a rational as a decimal-ish literal.  This abstracts the
Python `repr` of floats (e.g. `6.13`); no claim inspects these renderings. -/
def qstr (q : ℚ) : String :=
  if q.den = 1 then toString q.num ++ ".0"
  else toString q.num ++ "/" ++ toString q.den

/-! ## JSON values and serialization (`json.dumps`) -/

/-- JSON-like values: the payloads Python tools build as dicts/lists. -/
inductive Json where
  | null
  | jbool (b : Bool)
  | num (q : ℚ)
  | jint (n : ℤ)
  | str (s : String)
  | arr (xs : List Json)
  | obj (kvs : List (String × Json))

/-- Escape for JSON string literals (backslash and double quote; the
strings in this program contain no control characters). -/
def jsonEscape (s : String) : String :=
  String.mk (List.flatten (s.data.map (fun c =>
    if c = '\\' then ['\\', '\\'] else if c = '"' then ['\\', '"'] else [c])))

mutual

/-- Model of `json.dumps(…, ensure_ascii=False)`: objects and arrays use
the default `", "` and `": "` separators.  Numeric rendering goes through
`qstr` (an abstraction of float `repr`); no claim inspects it. -/
def serialize : Json → String
  | .null => "null"
  | .jbool b => if b then "true" else "false"
  | .num q => qstr q
  | .jint n => toString n
  | .str s => "\"" ++ jsonEscape s ++ "\""
  | .arr xs => "[" ++ String.intercalate ", " (serializeList xs) ++ "]"
  | .obj kvs => "\x7b" ++ String.intercalate ", " (serializeObj kvs) ++ "\x7d"

/-- Serialize the elements of a JSON array. -/
def serializeList : List Json → List String
  | [] => []
  | x :: t => serialize x :: serializeList t

/-- Serialize the key/value pairs of a JSON object. -/
def serializeObj : List (String × Json) → List String
  | [] => []
  | (k, v) :: t => ("\"" ++ jsonEscape k ++ "\": " ++ serialize v) :: serializeObj t

end

/-- Keys of a JSON object (empty for non-objects). -/
def objKeys : Json → List String
  | .obj kvs => kvs.map Prod.fst
  | _ => []

/-! ## Tool-call argument values -/

/-- Values an argument mapping can carry (the JSON scalars the two
providers emit as tool-call arguments). -/
inductive PyVal where
  | vstr (s : String)
  | vnum (q : ℚ)
  | vint (n : ℤ)
  | vbool (b : Bool)
deriving DecidableEq

/-- An argument mapping (Python keyword-argument dict). -/
abbrev Args := List (String × PyVal)

/-- JSON image of an argument value. -/
def pyValJson : PyVal → Json
  | .vstr s => .str s
  | .vnum q => .num q
  | .vint n => .jint n
  | .vbool b => .jbool b

/-- JSON image of an argument mapping. -/
def argsJson (args : Args) : Json := .obj (args.map (fun kv => (kv.1, pyValJson kv.2)))

/-! ## database.py — static reference tables -/

/-- One entry of `TATA_CARS_DB` (all fields of the source dict). -/
structure CarSpec where
  segment : String
  price_min : ℚ
  price_max : ℚ
  fuel_types : List String
  mileage_kmpl : Option ℚ
  engine_cc : Option ℤ
  power_ps : ℤ
  boot_litres : ℤ
  seats : ℤ
  ground_clearance : ℤ
  safety_rating : ℤ
  ac_quality : String
  best_for : List String
  not_good_for : List String
  emi_min : ℤ
  ev_range_km : Option ℤ
  usp : String
deriving DecidableEq

/-- Spec of the Tata Punch. -/
def punchSpec : CarSpec :=
  { segment := "Micro SUV", price_min := mkRat 613 100, price_max := mkRat 999 100
    fuel_types := ["Petrol", "CNG", "EV"], mileage_kmpl := some (mkRat 1882 100)
    engine_cc := some 1199, power_ps := 86, boot_litres := 366, seats := 5
    ground_clearance := 190, safety_rating := 5, ac_quality := "Standard"
    best_for := ["City commute", "First car", "Budget buyers"]
    not_good_for := ["Long highway runs", "Hills at speed"]
    emi_min := 8500, ev_range_km := some 315
    usp := "5-star safety in segment, rugged SUV stance" }

/-- Spec of the Tata Tiago. -/
def tiagoSpec : CarSpec :=
  { segment := "Hatchback", price_min := mkRat 560 100, price_max := mkRat 849 100
    fuel_types := ["Petrol", "CNG", "EV"], mileage_kmpl := some (mkRat 1980 100)
    engine_cc := some 1199, power_ps := 86, boot_litres := 242, seats := 5
    ground_clearance := 165, safety_rating := 4, ac_quality := "Standard"
    best_for := ["Tight budget", "City parking", "CNG savings"]
    not_good_for := ["Rough roads", "Large families"]
    emi_min := 7800, ev_range_km := some 250
    usp := "Most fuel-efficient Tata, lowest price of entry" }

/-- Spec of the Tata Tigor. -/
def tigorSpec : CarSpec :=
  { segment := "Compact Sedan", price_min := mkRat 799 100, price_max := mkRat 1129 100
    fuel_types := ["Petrol", "CNG", "EV"], mileage_kmpl := some (mkRat 1985 100)
    engine_cc := some 1199, power_ps := 86, boot_litres := 316, seats := 5
    ground_clearance := 170, safety_rating := 4, ac_quality := "Standard"
    best_for := ["Executive look", "CNG savings", "Sedan lovers"]
    not_good_for := ["Rough roads", "Hills"]
    emi_min := 11100, ev_range_km := some 306
    usp := "Only EV sedan in India under ₹12 lakhs" }

/-- Spec of the Tata Nexon. -/
def nexonSpec : CarSpec :=
  { segment := "Compact SUV", price_min := mkRat 810 100, price_max := mkRat 1550 100
    fuel_types := ["Petrol", "Diesel", "EV"], mileage_kmpl := some (mkRat 1701 100)
    engine_cc := some 1497, power_ps := 115, boot_litres := 382, seats := 5
    ground_clearance := 208, safety_rating := 5, ac_quality := "Good"
    best_for := ["City + highway", "Young families", "EV early adopters"]
    not_good_for := ["Large families needing 7 seats"]
    emi_min := 11200, ev_range_km := some 465
    usp := "India\x27s #1 selling EV, 5-star safety, highly versatile" }

/-- Spec of the Tata Altroz. -/
def altrozSpec : CarSpec :=
  { segment := "Premium Hatchback", price_min := mkRat 660 100, price_max := mkRat 1089 100
    fuel_types := ["Petrol", "Diesel", "CNG"], mileage_kmpl := some (mkRat 1938 100)
    engine_cc := some 1199, power_ps := 100, boot_litres := 345, seats := 5
    ground_clearance := 165, safety_rating := 5, ac_quality := "Excellent"
    best_for := ["Urban comfort", "Hot humid cities", "City professionals"]
    not_good_for := ["Bad roads", "Off-road use"]
    emi_min := 9200, ev_range_km := none
    usp := "Best AC in class, 5-star safety, premium cabin feel" }

/-- Spec of the Tata Harrier. -/
def harrierSpec : CarSpec :=
  { segment := "Midsize SUV", price_min := mkRat 1549 100, price_max := mkRat 2644 100
    fuel_types := ["Diesel"], mileage_kmpl := some (mkRat 1635 100)
    engine_cc := some 1956, power_ps := 170, boot_litres := 425, seats := 5
    ground_clearance := 205, safety_rating := 5, ac_quality := "Excellent"
    best_for := ["Highway cruising", "Family trips", "Hilly terrain", "Status"]
    not_good_for := ["Tight city parking", "Petrol preference"]
    emi_min := 21500, ev_range_km := none
    usp := "ADAS safety features, most powerful Tata, commanding presence" }

/-- Spec of the Tata Safari. -/
def safariSpec : CarSpec :=
  { segment := "Full-size SUV", price_min := mkRat 1619 100, price_max := mkRat 2734 100
    fuel_types := ["Diesel"], mileage_kmpl := some (mkRat 1469 100)
    engine_cc := some 1956, power_ps := 170, boot_litres := 447, seats := 7
    ground_clearance := 205, safety_rating := 5, ac_quality := "Excellent"
    best_for := ["Large families", "7-seater need", "Long highway trips"]
    not_good_for := ["City parking", "Tight budgets"]
    emi_min := 22500, ev_range_km := none
    usp := "Only 7-seater in Tata lineup, massive presence, highway master" }

/-- Spec of the Tata Curvv. -/
def curvvSpec : CarSpec :=
  { segment := "Coupe SUV", price_min := mkRat 1000 100, price_max := mkRat 1900 100
    fuel_types := ["Petrol", "Diesel", "EV"], mileage_kmpl := some (mkRat 1801 100)
    engine_cc := some 1497, power_ps := 125, boot_litres := 500, seats := 5
    ground_clearance := 200, safety_rating := 5, ac_quality := "Excellent"
    best_for := ["Style seekers", "Tech lovers", "EV transition"]
    not_good_for := ["Rear legroom sensitive buyers", "Very tight budgets"]
    emi_min := 13900, ev_range_km := some 502
    usp := "Largest boot in segment, best EV range, futuristic design" }

/-- Spec of the Tata Sierra EV. -/
def sierraSpec : CarSpec :=
  { segment := "Electric SUV", price_min := mkRat 2500 100, price_max := mkRat 3000 100
    fuel_types := ["EV"], mileage_kmpl := none
    engine_cc := none, power_ps := 200, boot_litres := 510, seats := 5
    ground_clearance := 210, safety_rating := 5, ac_quality := "Excellent"
    best_for := ["EV enthusiasts", "Premium segment", "Green buyers"]
    not_good_for := ["Long trips without chargers", "Budget buyers"]
    emi_min := 34700, ev_range_km := some 420
    usp := "Iconic nameplate reborn as EV, most powerful Tata passenger car" }

/-- `TATA_CARS_DB` in source (insertion) order. -/
def TATA_CARS_DB : List (String × CarSpec) :=
  [("Tata Punch", punchSpec), ("Tata Tiago", tiagoSpec), ("Tata Tigor", tigorSpec),
   ("Tata Nexon", nexonSpec), ("Tata Altroz", altrozSpec), ("Tata Harrier", harrierSpec),
   ("Tata Safari", safariSpec), ("Tata Curvv", curvvSpec), ("Tata Sierra EV", sierraSpec)]

/-- One entry of `CITY_PROFILES` (the `type` field is never read by the
tools and is omitted). -/
structure CityProfile where
  humidity : String
  terrain : String
deriving DecidableEq

/-- `CITY_PROFILES` in source order. -/
def CITY_PROFILES : List (String × CityProfile) :=
  [("Mumbai", ⟨"very_high", "flat"⟩), ("Chennai", ⟨"very_high", "flat"⟩),
   ("Kochi", ⟨"very_high", "flat"⟩), ("Kolkata", ⟨"high", "flat"⟩),
   ("Bangalore", ⟨"moderate", "flat"⟩), ("Pune", ⟨"moderate", "hilly"⟩),
   ("Delhi", ⟨"low", "flat"⟩), ("Lucknow", ⟨"moderate", "flat"⟩),
   ("Hyderabad", ⟨"low", "flat"⟩), ("Ahmedabad", ⟨"low", "flat"⟩),
   ("Jaipur", ⟨"very_low", "flat"⟩), ("Shimla", ⟨"low", "steep_hills"⟩)]

/-- Petrol reference prices (`REFERENCE_FUEL_PRICES["Petrol"]`). -/
def PETROL_PRICES : List (String × ℚ) :=
  [("Mumbai", mkRat 10421 100), ("Delhi", mkRat 9472 100), ("Chennai", mkRat 10029 100),
   ("Bangalore", mkRat 10286 100), ("Kolkata", mkRat 10541 100), ("Hyderabad", mkRat 10741 100),
   ("Pune", mkRat 10429 100), ("Ahmedabad", mkRat 9663 100), ("Kochi", mkRat 10771 100),
   ("Jaipur", mkRat 9972 100), ("Lucknow", mkRat 9476 100), ("Shimla", mkRat 10342 100),
   ("DEFAULT", 100)]

/-- Diesel reference prices (`REFERENCE_FUEL_PRICES["Diesel"]`). -/
def DIESEL_PRICES : List (String × ℚ) :=
  [("Mumbai", mkRat 9215 100), ("Delhi", mkRat 8762 100), ("Chennai", mkRat 9244 100),
   ("Bangalore", mkRat 8894 100), ("Kolkata", mkRat 9276 100), ("Hyderabad", mkRat 9565 100),
   ("Pune", mkRat 9142 100), ("Ahmedabad", mkRat 8933 100), ("Kochi", mkRat 9626 100),
   ("Jaipur", mkRat 9021 100), ("Lucknow", mkRat 8761 100), ("Shimla", mkRat 9110 100),
   ("DEFAULT", 91)]

/-- CNG reference prices (`REFERENCE_FUEL_PRICES["CNG"]`). -/
def CNG_PRICES : List (String × ℚ) :=
  [("Mumbai", 73), ("Delhi", mkRat 7409 100), ("Pune", mkRat 7550 100),
   ("Ahmedabad", mkRat 6815 100), ("DEFAULT", 74)]

/-- `REFERENCE_FUEL_PRICES` in source order. -/
def REFERENCE_FUEL_PRICES : List (String × List (String × ℚ)) :=
  [("Petrol", PETROL_PRICES), ("Diesel", DIESEL_PRICES), ("CNG", CNG_PRICES)]

/-! ## tools.py — tool 1: get_city_weather -/

/-- A successful live wttr.in reading (HTTP 200 with parseable body). -/
structure WttrData where
  temp_c : ℤ
  humidity : ℤ
  description : String
deriving DecidableEq

/-- External-world behaviour of the weather lookup: for each city either a
live reading or `none` for any network failure, timeout, non-200 status or
parse error (all of which the source folds into one fallback path). -/
def World := String → Option WttrData

/-- AC-importance classification of the live branch. -/
def acImportanceLive (hum temp : ℤ) : String :=
  if hum > 70 ∨ temp > 35 then "HIGH" else if temp > 28 then "MODERATE" else "LOW"

/-- `hum_map` of the fallback branch. -/
def humMap : List (String × ℤ) :=
  [("very_high", 85), ("high", 70), ("moderate", 55), ("low", 35), ("very_low", 20)]

/-- `get_city_weather`: live branch when the world supplies a reading,
city-profile fallback otherwise. -/
def get_city_weather (w : World) (city : String) : Json :=
  match w city with
  | some d =>
      .obj [("city", .str city), ("temperature_c", .jint d.temp_c),
            ("humidity_pct", .jint d.humidity), ("description", .str d.description),
            ("terrain", .str (((CITY_PROFILES.lookup city).map CityProfile.terrain).getD "flat")),
            ("ac_importance", .str (acImportanceLive d.humidity d.temp_c)),
            ("source", .str "wttr.in (live)")]
  | none =>
      let profile := (CITY_PROFILES.lookup city).getD ⟨"moderate", "flat"⟩
      .obj [("city", .str city),
            ("temperature_c", .jint (if profile.humidity = "very_high" ∨ profile.humidity = "high" then 32 else 25)),
            ("humidity_pct", .jint ((humMap.lookup profile.humidity).getD 55)),
            ("description", .str "Estimated from city climate profile"),
            ("terrain", .str profile.terrain),
            ("ac_importance", .str (if profile.humidity = "very_high" ∨ profile.humidity = "high" then "HIGH"
              else if profile.humidity = "moderate" then "MODERATE" else "LOW")),
            ("source", .str "city_profile_fallback")]

/-! ## tools.py — tool 2: get_tata_cars -/

/-- The four early-exit filters of `get_tata_cars`, as one conjunction:
budget overlap, fuel preference (exempt for `any`/`no preference`), and
minimum seats. -/
def carPred (bmin bmax : ℚ) (fuel : String) (min_seats : ℚ) (s : CarSpec) : Bool :=
  !decide (s.price_min > bmax) && !decide (s.price_max < bmin) &&
  (decide (pyLower fuel = "any" ∨ pyLower fuel = "no preference")
    || s.fuel_types.any (fun f => pyInCI fuel f)) &&
  !decide ((s.seats : ℚ) < min_seats)

/-- One entry of the `matching` list built by `get_tata_cars`. -/
structure CarMatch where
  name : String
  segment : String
  price_range : String
  price_min : ℚ
  price_max : ℚ
  fuel_types : List String
  mileage_kmpl : Option ℚ
  ev_range_km : Option ℤ
  power_ps : ℤ
  boot_litres : ℤ
  seats : ℤ
  ground_clearance : ℤ
  safety_stars : ℤ
  ac_quality : String
  best_for : List String
  not_good_for : List String
  emi_approx : ℤ
  usp : String
deriving DecidableEq

/-- The matching dict `get_tata_cars` builds for one car. -/
def mkCarMatch (name : String) (s : CarSpec) : CarMatch :=
  { name := name, segment := s.segment
    price_range := "₹" ++ qstr s.price_min ++ "–" ++ qstr s.price_max ++ " Lakhs"
    price_min := s.price_min, price_max := s.price_max, fuel_types := s.fuel_types
    mileage_kmpl := s.mileage_kmpl, ev_range_km := s.ev_range_km, power_ps := s.power_ps
    boot_litres := s.boot_litres, seats := s.seats, ground_clearance := s.ground_clearance
    safety_stars := s.safety_rating, ac_quality := s.ac_quality, best_for := s.best_for
    not_good_for := s.not_good_for, emi_approx := s.emi_min, usp := s.usp }

/-- Return value of `get_tata_cars` (the `search_criteria` sub-dict is
flattened into the three `criteria_*` fields). -/
structure TataCarsResult where
  total_matches : ℕ
  criteria_budget : String
  criteria_fuel : String
  criteria_min_seats : ℚ
  matching_cars : List CarMatch
deriving DecidableEq

/-- `get_tata_cars`: filter `TATA_CARS_DB` by budget overlap, fuel
preference and seat count. -/
def get_tata_cars (bmin bmax : ℚ) (fuel : String := "any") (min_seats : ℚ := 4) :
    TataCarsResult :=
  let matching := (TATA_CARS_DB.filter (fun e => carPred bmin bmax fuel min_seats e.2)).map
    (fun e => mkCarMatch e.1 e.2)
  { total_matches := matching.length
    criteria_budget := qstr bmin ++ "–" ++ qstr bmax ++ " Lakhs"
    criteria_fuel := fuel
    criteria_min_seats := min_seats
    matching_cars := matching }

/-- JSON image of one matching car, in source key order. -/
def carMatchJson (c : CarMatch) : Json :=
  .obj [("name", .str c.name), ("segment", .str c.segment), ("price_range", .str c.price_range),
        ("price_min", .num c.price_min), ("price_max", .num c.price_max),
        ("fuel_types", .arr (c.fuel_types.map Json.str)),
        ("mileage_kmpl", (c.mileage_kmpl.map Json.num).getD .null),
        ("ev_range_km", (c.ev_range_km.map Json.jint).getD .null),
        ("power_ps", .jint c.power_ps), ("boot_litres", .jint c.boot_litres),
        ("seats", .jint c.seats), ("ground_clearance", .jint c.ground_clearance),
        ("safety_stars", .jint c.safety_stars), ("ac_quality", .str c.ac_quality),
        ("best_for", .arr (c.best_for.map Json.str)),
        ("not_good_for", .arr (c.not_good_for.map Json.str)),
        ("emi_approx", .jint c.emi_approx), ("usp", .str c.usp)]

/-- JSON image of a `get_tata_cars` result, in source key order. -/
def tataCarsJson (r : TataCarsResult) : Json :=
  .obj [("total_matches", .jint r.total_matches),
        ("search_criteria", .obj [("budget", .str r.criteria_budget),
                                  ("fuel", .str r.criteria_fuel),
                                  ("min_seats", .num r.criteria_min_seats)]),
        ("matching_cars", .arr (r.matching_cars.map carMatchJson))]

/-! ## tools.py — tool 3: get_fuel_price -/

/-- Fuel-key normalisation: lower-cased `petrol`/`diesel`/`cng` map to
their canonical key, everything else defaults to `"Petrol"`. -/
def normFuelKey (ft : String) : String :=
  (([("petrol", "Petrol"), ("diesel", "Diesel"), ("cng", "CNG")] :
    List (String × String)).lookup (pyLower ft)).getD "Petrol"

/-- Return record of `get_fuel_price`, in source field order. -/
structure FuelRec where
  city : String
  fuel_type : String
  price_per_litre : ℚ
  currency : String
  source : String
  monthly_cost_estimate : ℤ
  annual_cost_estimate : ℤ
  assumptions : String

/-- The price table selected for a fuel type:
`REFERENCE_FUEL_PRICES.get(fuel_key, REFERENCE_FUEL_PRICES["Petrol"])`. -/
def fuelTableOf (fuel_type : String) : List (String × ℚ) :=
  (REFERENCE_FUEL_PRICES.lookup (normFuelKey fuel_type)).getD PETROL_PRICES

/-- The city key: first table key occurring case-insensitively in the
city string, else `"DEFAULT"`. -/
def cityKeyOf (fuel_type city : String) : String :=
  (((fuelTableOf fuel_type).map Prod.fst).find? (fun k => pyInCI k city)).getD "DEFAULT"

/-- The assumed average mileage: 26 for CNG, 18 for Diesel, 17 otherwise. -/
def avgMileageOf (fuel_type : String) : ℚ :=
  if normFuelKey fuel_type = "CNG" then 26
  else if normFuelKey fuel_type = "Diesel" then 18 else 17

/-- The priced record `get_fuel_price` builds (monthly cost estimated at
1500 km/month). -/
def mkFuelRec (city fuel_type : String) (ppl : ℚ) : FuelRec :=
  { city := city, fuel_type := normFuelKey fuel_type, price_per_litre := ppl
    currency := "INR", source := "reference_data_feb2026"
    monthly_cost_estimate := pyRound ((1500 : ℚ) / avgMileageOf fuel_type * ppl)
    annual_cost_estimate := pyRound ((1500 : ℚ) / avgMileageOf fuel_type * ppl * 12)
    assumptions := "1500 km/month, " ++ qstr (avgMileageOf fuel_type) ++ " kmpl avg" }

/-- `get_fuel_price`: normalise the fuel key, pick the first price-table
key that occurs (case-insensitively) in the city string or `"DEFAULT"`,
and build the priced record.  `none` models the (unreachable) `KeyError`
of `prices[city_key]`. -/
def get_fuel_price (city : String) (fuel_type : String := "Petrol") : Option FuelRec :=
  match (fuelTableOf fuel_type).lookup (cityKeyOf fuel_type city) with
  | none => none
  | some ppl => some (mkFuelRec city fuel_type ppl)

/-- JSON image of a `get_fuel_price` record, in source key order. -/
def fuelRecJson (r : FuelRec) : Json :=
  .obj [("city", .str r.city), ("fuel_type", .str r.fuel_type),
        ("price_per_litre", .num r.price_per_litre), ("currency", .str r.currency),
        ("source", .str r.source), ("monthly_cost_estimate", .jint r.monthly_cost_estimate),
        ("annual_cost_estimate", .jint r.annual_cost_estimate),
        ("assumptions", .str r.assumptions)]

/-! ## tools.py — tool 4: calculate_tco -/

/-- `calculate_tco`: fuzzy-match the car, then EMI + fuel + insurance +
maintenance.  `none` models an exception escaping the tool (only possible
through the `get_fuel_price` `KeyError`, shown unreachable below).  The
`:,.0f` / `:.2f` number formats are abstracted by `qstr`/`toString`. -/
def calculate_tco (car_name city : String) (daily_km : ℚ)
    (ownership_years : ℤ := 5) (fuel_type : String := "Petrol") : Option Json :=
  match TATA_CARS_DB.find? (fun e => pyInCI car_name e.1 || pyInCI e.1 car_name) with
  | none =>
      some (.obj [("error", .str ("Car " ++ squo ++ car_name ++ squo ++ " not found. Available: " ++
        pyListRepr (TATA_CARS_DB.map Prod.fst)))])
  | some e =>
      let s := e.2
      let price_inr := s.price_min * 100000
      let down_pmt := price_inr * mkRat 20 100
      let loan_amt := price_inr * mkRat 80 100
      let r_monthly : ℚ := mkRat 85 1000 / 12
      let pw := (1 + r_monthly) ^ (84 : ℕ)
      let emi := loan_amt * (r_monthly * pw) / (pw - 1)
      let monthly_km := daily_km * 30
      let fuelPart : Option (ℚ × String) :=
        if pyUpper fuel_type = "EV" then
          some (monthly_km / 100 * 15 * 7, "EV: ₹7/kWh home charging, 15 kWh/100 km")
        else
          match get_fuel_price city fuel_type with
          | none => none
          | some fd =>
              let mileage := s.mileage_kmpl.getD 18
              some (monthly_km / mileage * fd.price_per_litre,
                "₹" ++ qstr fd.price_per_litre ++ "/L at " ++ qstr mileage ++ " kmpl")
      match fuelPart with
      | none => none
      | some (monthly_fuel_cost, fuel_note) =>
          let monthly_insurance := price_inr * mkRat 3 100 / 12
          let services_per_year := max 1 (daily_km * 365 / 10000)
          let monthly_maint := services_per_year * 10000 / 12
          let monthly_total := emi + monthly_fuel_cost + monthly_insurance + monthly_maint
          let annual_total := monthly_total * 12
          let total_cost := annual_total * (ownership_years : ℚ) + down_pmt
          let resale_5yr := price_inr * mkRat 80 100 * mkRat 85 100 * mkRat 85 100 *
            mkRat 90 100 * mkRat 90 100
          some (.obj [("car", .str e.1), ("variant", .str "Base variant"),
            ("ex_showroom_price", .str ("₹" ++ qstr s.price_min ++ " Lakhs")),
            ("down_payment", .str ("₹" ++ toString (pyRound down_pmt))),
            ("monthly_breakdown", .obj [
              ("emi_7yr_8.5pct", .jint (pyRound emi)),
              ("fuel_cost", .jint (pyRound monthly_fuel_cost)),
              ("insurance", .jint (pyRound monthly_insurance)),
              ("maintenance", .jint (pyRound monthly_maint)),
              ("total_monthly", .jint (pyRound monthly_total))]),
            ("annual_total", .jint (pyRound annual_total)),
            ("total_" ++ toString ownership_years ++ "yr_cost", .jint (pyRound total_cost)),
            ("estimated_resale_5yr", .str ("₹" ++ qstr (resale_5yr / 100000) ++ " Lakhs")),
            ("fuel_note", .str fuel_note),
            ("daily_km_assumption", .num daily_km)])

/-! ## tools.py — dispatcher -/

/-- Keys of `TOOL_MAP`, in insertion order. -/
def TOOL_NAMES : List String :=
  ["get_city_weather", "get_tata_cars", "get_fuel_price", "calculate_tco"]

/-- The message of the unknown-tool error payload. -/
def unknownToolMsg (name : String) : String :=
  "Unknown tool: " ++ squo ++ name ++ squo ++ ". Available: " ++ pyListRepr TOOL_NAMES

/-- The bad-arguments payload (`except TypeError` branch of `dispatch`);
the appended Python exception text is abstracted away. -/
def badArgs (name : String) (args : Args) : Json :=
  .obj [("error", .str ("Bad arguments for " ++ name)), ("args_received", argsJson args)]

/-- The generic tool-failure payload (`except Exception` branch). -/
def toolError (name msg : String) : Json :=
  .obj [("error", .str msg), ("tool", .str name)]

/-- Keyword-argument check: every supplied key is a declared parameter. -/
def keysOk (args : Args) (params : List String) : Bool :=
  args.all (fun kv => params.contains kv.1)

/-- A required/optional string argument. -/
def argStr : PyVal → Option String
  | .vstr s => some s
  | _ => none

/-- A required/optional numeric argument (Python accepts int where float
is expected). -/
def argNum : PyVal → Option ℚ
  | .vnum q => some q
  | .vint n => some (n : ℚ)
  | _ => none

/-- An integer argument. -/
def argInt : PyVal → Option ℤ
  | .vint n => some n
  | _ => none

/-- Look up an optional argument with a default. -/
def optArg {α : Type} (get : PyVal → Option α) (args : Args) (k : String) (d : α) : Option α :=
  match args.lookup k with
  | none => some d
  | some v => get v

/-- Look up a required argument. -/
def reqArg {α : Type} (get : PyVal → Option α) (args : Args) (k : String) : Option α :=
  (args.lookup k).bind get

/-- Keyword binding and invocation of one registered tool (`TOOL_MAP[name](**args)`):
a key outside the tool signature, a missing required argument, or a
wrongly-typed argument yields the bad-arguments payload. -/
def callTool (w : World) (name : String) (args : Args) : Json :=
  if name = "get_city_weather" then
    if keysOk args ["city"] then
      match reqArg argStr args "city" with
      | some city => get_city_weather w city
      | none => badArgs name args
    else badArgs name args
  else if name = "get_tata_cars" then
    if keysOk args ["budget_min_lakhs", "budget_max_lakhs", "fuel_preference", "min_seats"] then
      match reqArg argNum args "budget_min_lakhs", reqArg argNum args "budget_max_lakhs",
            optArg argStr args "fuel_preference" "any", optArg argNum args "min_seats" 4 with
      | some a, some b, some f, some m => tataCarsJson (get_tata_cars a b f m)
      | _, _, _, _ => badArgs name args
    else badArgs name args
  else if name = "get_fuel_price" then
    if keysOk args ["city", "fuel_type"] then
      match reqArg argStr args "city", optArg argStr args "fuel_type" "Petrol" with
      | some city, some ft =>
          match get_fuel_price city ft with
          | some r => fuelRecJson r
          | none => toolError name "fuel price lookup failed"
      | _, _ => badArgs name args
    else badArgs name args
  else if name = "calculate_tco" then
    if keysOk args ["car_name", "city", "daily_km", "ownership_years", "fuel_type"] then
      match reqArg argStr args "car_name", reqArg argStr args "city",
            reqArg argNum args "daily_km", optArg argInt args "ownership_years" 5,
            optArg argStr args "fuel_type" "Petrol" with
      | some car, some city, some dkm, some y, some ft =>
          match calculate_tco car city dkm y ft with
          | some j => j
          | none => toolError name "fuel price lookup failed"
      | _, _, _, _, _ => badArgs name args
    else badArgs name args
  else .null

/-- The payload `dispatch` serializes: the unknown-tool error object, or
the invoked tool's result. -/
def dispatchJson (w : World) (name : String) (args : Args) : Json :=
  if TOOL_NAMES.contains name then callTool w name args
  else .obj [("error", .str (unknownToolMsg name))]

/-- `dispatch`: execute a tool by name and serialize the result; every
failure is returned as a serialized error object, never raised. -/
def dispatch (w : World) (name : String) (args : Args) : String :=
  serialize (dispatchJson w name args)

/-! ## agents.py — shared result shape and constants -/

/-- One tool-log entry: `{step, tool, args}`, step 1-indexed by loop
iteration. -/
structure LogEntry where
  step : ℕ
  tool : String
  args : Args
deriving DecidableEq

/-- The `AgentResult` dataclass. -/
structure AgentResult where
  answer : String
  tool_log : List LogEntry := []
  model : String := ""
  provider : String := ""
  fallback_used : Bool := false
  error : Option String := none
deriving DecidableEq

/-- The shared system prompt (abridged: its content never influences the
control flow modelled here). -/
def SYSTEM_PROMPT : String := "You are the Tata Car Buying Advisor"

/-- `MAX_STEPS` of both agents. -/
def MAX_STEPS : ℕ := 12

/-- The fixed exhaustion answer both loops return. -/
def EXHAUST_MSG : String := "Agent reached maximum steps without a final answer."

/-- `GeminiAgent.MODEL`. -/
def GEMINI_MODEL : String := "gemini-2.5-flash"

/-- `GroqAgent.MODEL`. -/
def GROQ_MODEL : String := "llama-3.3-70b-versatile"

/-! ## agents.py — GeminiAgent.run -/

/-- A function call emitted inside a Gemini response part. -/
structure GeminiCall where
  name : String
  args : Args
deriving DecidableEq

/-- One part of a Gemini candidate content: an optional `function_call`
and an optional `text` (Python treats `None` and `""` as falsy). -/
structure GPart where
  function_call : Option GeminiCall
  text : Option String
deriving DecidableEq

/-- One turn of the Gemini conversation state (`contents`). -/
inductive GContent where
  | user (text : String)
  | model (parts : List GPart)
  | tool (responses : List (String × String))
deriving DecidableEq

/-- Provider behaviour for the Gemini loop: the parts of the response at
each loop iteration (an arbitrary infinite sequence of turns). -/
def GeminiProvider := ℕ → List GPart

/-- `calls = [p.function_call for p in content.parts if p.function_call]`. -/
def extractCalls (parts : List GPart) : List GeminiCall :=
  parts.filterMap (fun p => p.function_call)

/-- `texts = [p.text for p in content.parts if p.text]` (empty strings are
falsy and dropped). -/
def extractTexts (parts : List GPart) : List String :=
  parts.filterMap (fun p => match p.text with
    | some t => if t = "" then none else some t
    | none => none)

/-- The exhaustion result of the Gemini loop (both the `break` on an empty
turn and running out of iterations reach the same post-loop return). -/
def geminiExhausted (log : List LogEntry) : AgentResult :=
  { answer := EXHAUST_MSG, tool_log := log, model := GEMINI_MODEL, provider := "gemini" }

/-- The final-answer result of the Gemini loop. -/
def geminiFinal (texts : List String) (log : List LogEntry) : AgentResult :=
  { answer := String.intercalate "\n" texts, tool_log := log, model := GEMINI_MODEL
    provider := "gemini" }

/-- The iteration of `GeminiAgent.run`: at each step classify the
response parts; a turn with function calls dispatches each call in order,
logging `{step+1, name, args}` and appending the model turn plus one tool
turn to the conversation; otherwise a turn with non-empty text returns the
final answer; otherwise the loop breaks to the exhaustion result. -/
def geminiLoop (w : World) (prov : GeminiProvider) :
    ℕ → ℕ → List GContent → List LogEntry → AgentResult
  | _, 0, _, log => geminiExhausted log
  | step, fuel + 1, contents, log =>
    if extractCalls (prov step) = [] then
      if extractTexts (prov step) = [] then geminiExhausted log
      else geminiFinal (extractTexts (prov step)) log
    else
      geminiLoop w prov (step + 1) fuel
        (contents ++ [GContent.model (prov step),
          GContent.tool ((extractCalls (prov step)).map
            (fun c => (c.name, dispatch w c.name c.args)))])
        (log ++ (extractCalls (prov step)).map
          (fun c => { step := step + 1, tool := c.name, args := c.args }))

/-- `GeminiAgent.run(query)`. -/
def geminiRun (w : World) (prov : GeminiProvider) (query : String) : AgentResult :=
  geminiLoop w prov 0 MAX_STEPS [GContent.user query] []

/-! ## agents.py — GroqAgent.run -/

/-- One tool call of a Groq assistant message (`function.arguments`
already parsed from JSON). -/
structure GroqToolCall where
  id : String
  name : String
  args : Args
deriving DecidableEq

/-- A Groq assistant message: optional content and a tool-call list
(Python `None`/`[]` are both falsy, modelled as `[]`). -/
structure GroqMessage where
  content : Option String
  tool_calls : List GroqToolCall
deriving DecidableEq

/-- One Groq chat-completion response: the first choice's message and
finish reason. -/
structure GroqResponse where
  message : GroqMessage
  finish_reason : String
deriving DecidableEq

/-- One entry of the Groq `messages` list. -/
inductive ChatMsg where
  | system (s : String)
  | user (s : String)
  | assistant (m : GroqMessage)
  | tool (id : String) (content : String)
deriving DecidableEq

/-- Provider behaviour for the Groq loop: the response at each loop
iteration. -/
def GroqProvider := ℕ → GroqResponse

/-- The exhaustion result of the Groq loop. -/
def groqExhausted (log : List LogEntry) : AgentResult :=
  { answer := EXHAUST_MSG, tool_log := log, model := GROQ_MODEL, provider := "groq" }

/-- The final-answer result of the Groq loop. -/
def groqFinal (answer : String) (log : List LogEntry) : AgentResult :=
  { answer := answer, tool_log := log, model := GROQ_MODEL, provider := "groq" }

/-- The iteration of `GroqAgent.run`: the assistant message is appended to
`messages`; if `finish_reason == "tool_calls"` and the tool-call list is
non-empty each call is dispatched in order (logging `{step+1, name, args}`
and appending a tool message); otherwise non-empty content is the final
answer; otherwise the loop breaks to the exhaustion result. -/
def groqLoop (w : World) (prov : GroqProvider) :
    ℕ → ℕ → List ChatMsg → List LogEntry → AgentResult
  | _, 0, _, log => groqExhausted log
  | step, fuel + 1, messages, log =>
    if (prov step).finish_reason = "tool_calls" ∧ (prov step).message.tool_calls ≠ [] then
      groqLoop w prov (step + 1) fuel
        ((messages ++ [ChatMsg.assistant (prov step).message]) ++
          (prov step).message.tool_calls.map
            (fun tc => ChatMsg.tool tc.id (dispatch w tc.name tc.args)))
        (log ++ (prov step).message.tool_calls.map
          (fun tc => { step := step + 1, tool := tc.name, args := tc.args }))
    else
      match (prov step).message.content with
      | some c => if c = "" then groqExhausted log else groqFinal c log
      | none => groqExhausted log

/-- `GroqAgent.run(query)`. -/
def groqRun (w : World) (prov : GroqProvider) (query : String) : AgentResult :=
  groqLoop w prov 0 MAX_STEPS [ChatMsg.system SYSTEM_PROMPT, ChatMsg.user query] []

/-! ## agents.py — run_agent (fallback orchestrator) -/

/-- Outcome of invoking one agent's `run` on the query: a returned
`AgentResult` or a raised exception with its message. -/
inductive Outcome where
  | ok (r : AgentResult)
  | exn (msg : String)
deriving DecidableEq

/-- `_QUOTA_KEYWORDS` (source order of the set literal). -/
def QUOTA_KEYWORDS : List String :=
  ["429", "RESOURCE_EXHAUSTED", "quota", "rate_limit", "rate limit"]

/-- Quota classification: `any(kw in err_str for kw in _QUOTA_KEYWORDS)`. -/
def isQuota (msg : String) : Bool := QUOTA_KEYWORDS.any (fun kw => pyIn kw msg)

/-- The error result `AgentResult(answer="", error=err_str, provider=p)`. -/
def errResult (msg provider : String) : AgentResult :=
  { answer := "", provider := provider, error := some msg }

/-- The no-provider error message. -/
def NO_PROVIDER_MSG : String :=
  "No AI provider available. Add GEMINI_API_KEY and/or GROQ_API_KEY to .env"

/-- The result returned when neither provider is configured. -/
def noProviderResult : AgentResult :=
  { answer := "", provider := "none", error := some NO_PROVIDER_MSG }

/-- The Groq fallback block of `run_agent`: run the secondary when
configured (marking `fallback_used=True` on success, wrapping a raised
exception into an error result), else the no-provider result. -/
def groqFallback (groq : Option Outcome) : Outcome :=
  match groq with
  | some (.ok r) => .ok { r with fallback_used := true }
  | some (.exn m) => .ok (errResult m "groq")
  | none => .ok noProviderResult

/-- The primary branch of `run_agent`: a Gemini success is returned as-is;
a raised exception is classified against `_QUOTA_KEYWORDS` — non-quota
errors surface immediately, quota errors (and an unconfigured Gemini)
fall through to the Groq fallback block. -/
def geminiPhase (gemini groq : Option Outcome) : Outcome :=
  match gemini with
  | some (.ok r) => .ok r
  | some (.exn m) => if isQuota m then groqFallback groq else .ok (errResult m "gemini")
  | none => groqFallback groq

/-- `run_agent(query, gemini_agent, groq_agent, force_groq)`, with each
configured agent's run on the query abstracted to its `Outcome`.  In the
force-Groq branch the secondary's run is not wrapped in `try`, so a raised
exception propagates (`Outcome.exn`). -/
def run_agent (gemini groq : Option Outcome) (force_groq : Bool) : Outcome :=
  match force_groq, groq with
  | true, some (.ok r) => .ok { r with fallback_used := false }
  | true, some (.exn m) => .exn m
  | _, _ => geminiPhase gemini groq

/-! ## Helper lemmas -/

/-- A substring of the right part of an append is a substring of the
whole. -/
theorem seqContains_append_right (l₁ l₂ sub : List Char) (h : seqContains l₂ sub = true) :
    seqContains (l₁ ++ l₂) sub = true := by
  induction l₁ with
  | nil => simpa using h
  | cons c t ih => rw [List.cons_append, seqContains]; simp [ih]

/-- A successful association-list lookup yields a member pair. -/
theorem pair_mem_of_lookup {α β : Type} [BEq α] [LawfulBEq α] {l : List (α × β)} {k : α}
    {v : β} (h : l.lookup k = some v) : (k, v) ∈ l := by
  obtain ⟨l₁, l₂, rfl, -⟩ := List.lookup_eq_some_iff.mp h
  simp

/-- The Groq loop always reports provider `"groq"` and never sets the
fallback flag itself. -/
theorem groqLoop_fields (w : World) (prov : GroqProvider) :
    ∀ (fuel step : ℕ) (msgs : List ChatMsg) (log : List LogEntry),
      (groqLoop w prov step fuel msgs log).provider = "groq" ∧
      (groqLoop w prov step fuel msgs log).fallback_used = false := by
  intro fuel
  induction fuel with
  | zero => intro step msgs log; exact ⟨rfl, rfl⟩
  | succ n ih =>
      intro step msgs log
      rw [groqLoop]
      split
      · exact ih _ _ _
      · split
        · split
          · exact ⟨rfl, rfl⟩
          · exact ⟨rfl, rfl⟩
        · exact ⟨rfl, rfl⟩

/-- The Gemini loop always reports provider `"gemini"` and never sets the
fallback flag itself. -/
theorem geminiLoop_fields (w : World) (prov : GeminiProvider) :
    ∀ (fuel step : ℕ) (contents : List GContent) (log : List LogEntry),
      (geminiLoop w prov step fuel contents log).provider = "gemini" ∧
      (geminiLoop w prov step fuel contents log).fallback_used = false := by
  intro fuel
  induction fuel with
  | zero => intro step contents log; exact ⟨rfl, rfl⟩
  | succ n ih =>
      intro step contents log
      rw [geminiLoop]
      split
      · split
        · exact ⟨rfl, rfl⟩
        · exact ⟨rfl, rfl⟩
      · exact ih _ _ _

/-! ## Claim C7 -/

/-- C7 counterexample: with no provider configured, `run_agent` does
return provider `"none"` and a non-empty error, but the error string is
not equal to `"No AI provider available"` — it carries the longer
key-setup guidance text. -/
theorem C7_counterexample :
    run_agent none none false = .ok noProviderResult ∧
    noProviderResult.error = some NO_PROVIDER_MSG ∧
    NO_PROVIDER_MSG ≠ "No AI provider available" :=
  ⟨rfl, rfl, by decide⟩

/-- C7 (amended): for every query and either force flag, with neither
agent configured `run_agent` returns provider `"none"` and a non-empty
error that starts with `"No AI provider available"` (the full text also
names the API keys to configure). -/
theorem C7_no_provider_amended (f : Bool) :
    run_agent none none f = .ok noProviderResult ∧
    noProviderResult.provider = "none" ∧
    noProviderResult.error = some NO_PROVIDER_MSG ∧
    NO_PROVIDER_MSG ≠ "" ∧
    List.isPrefixOf "No AI provider available".data NO_PROVIDER_MSG.data = true := by
  cases f <;> exact ⟨rfl, rfl, rfl, by decide, by decide⟩

/-! ## Claim C8 -/

/-- C8: for the three tools that read only the static reference tables
(everything except the live-weather lookup), `dispatch` is a pure function
of the tool name and arguments — two calls with identical `(name, args)`
against any two external-world states return identical serialized
strings. -/
theorem C8_dispatch_deterministic (w1 w2 : World) (name : String) (args : Args)
    (h : name ∈ (["get_tata_cars", "get_fuel_price", "calculate_tco"] : List String)) :
    dispatch w1 name args = dispatch w2 name args := by
  simp only [List.mem_cons, List.not_mem_nil, or_false] at h
  rcases h with rfl | rfl | rfl <;> rfl

/-- C8 witness: a concrete fuel-price dispatch is identical under two
different weather worlds. -/
theorem C8_witness :
    dispatch (fun _ => none) "get_fuel_price"
        [("city", .vstr "Delhi"), ("fuel_type", .vstr "Petrol")] =
      dispatch (fun _ => some ⟨40, 80, "Sunny"⟩) "get_fuel_price"
        [("city", .vstr "Delhi"), ("fuel_type", .vstr "Petrol")] :=
  C8_dispatch_deterministic (fun _ => none) (fun _ => some ⟨40, 80, "Sunny"⟩)
    "get_fuel_price" [("city", .vstr "Delhi"), ("fuel_type", .vstr "Petrol")] (by decide)

/-! ## Claim C5 -/

/-- C5 counterexample: the unknown-tool payload has a single `error` key;
there is no separate `available` key — the list of known tools is folded
into the error string itself. -/
theorem C5_counterexample :
    dispatchJson (fun _ => none) "delete_everything" [] =
      .obj [("error", .str (unknownToolMsg "delete_everything"))] ∧
    objKeys (dispatchJson (fun _ => none) "delete_everything" []) = ["error"] ∧
    ¬ "available" ∈ objKeys (dispatchJson (fun _ => none) "delete_everything" []) :=
  ⟨rfl, rfl, by decide⟩

/-- C5 (amended): for every unknown tool name and any argument mapping,
`dispatch` returns (never raises) the serialized object whose single
`error` field contains the literal unknown-tool message followed by the
Python repr of the four registered tool names, each of which occurs in
that string. -/
theorem C5_unknown_tool_amended (w : World) (name : String) (args : Args)
    (h : TOOL_NAMES.contains name = false) :
    dispatch w name args =
      serialize (.obj [("error", .str ("Unknown tool: " ++ squo ++ name ++ squo ++
        ". Available: " ++ pyListRepr TOOL_NAMES))]) ∧
    TOOL_NAMES = ["get_city_weather", "get_tata_cars", "get_fuel_price", "calculate_tco"] ∧
    (∀ t ∈ TOOL_NAMES, pyIn t (unknownToolMsg name) = true) := by
  refine ⟨?_, rfl, ?_⟩
  · have hn : ¬ TOOL_NAMES.contains name = true := by
      intro hc; rw [h] at hc; cases hc
    rw [dispatch, dispatchJson, if_neg hn, unknownToolMsg]
  · intro t ht
    have hsplit : unknownToolMsg name =
        ("Unknown tool: " ++ squo ++ name ++ squo ++ ". Available: ") ++ pyListRepr TOOL_NAMES := by
      rw [unknownToolMsg, String.append_assoc]
    rw [pyIn, hsplit, String.data_append]
    apply seqContains_append_right
    simp only [TOOL_NAMES, List.mem_cons, List.not_mem_nil, or_false] at ht
    rcases ht with rfl | rfl | rfl | rfl <;> decide

/-- C5 witness: the spec's scenario input `"delete_everything"` with empty
arguments. -/
theorem C5_witness :
    dispatch (fun _ => none) "delete_everything" [] =
      serialize (.obj [("error", .str ("Unknown tool: " ++ squo ++ "delete_everything" ++ squo ++
        ". Available: " ++ pyListRepr TOOL_NAMES))]) :=
  (C5_unknown_tool_amended (fun _ => none) "delete_everything" [] (by decide)).1

/-! ## Claim C4 -/

/-- Concrete Groq-produced result used to refute C4: a one-turn final
answer from the secondary's loop. -/
def c4GroqResult : AgentResult :=
  groqRun (fun _ => none) (fun _ => ⟨⟨some "forced groq answer", []⟩, "stop"⟩) "pick me a car"

/-- C4 counterexample: on the force-Groq path the secondary's loop
produces the returned result (provider `"groq"`, its answer), yet
`run_agent` sets `fallback_used := false` — refuting `fallback_used` =
true iff the secondary produced the result. -/
theorem C4_counterexample :
    run_agent none (some (.ok c4GroqResult)) true = .ok { c4GroqResult with fallback_used := false } ∧
    ({ c4GroqResult with fallback_used := false } : AgentResult).fallback_used = false ∧
    c4GroqResult.provider = "groq" ∧
    c4GroqResult.answer = "forced groq answer" :=
  ⟨rfl, rfl, rfl, rfl⟩

/-- C4 (amended): `fallback_used` is true iff the returned result came
from the secondary through the automatic fallback path (primary
unconfigured, or primary raised a quota-classified error, and the
secondary's run returned); it is false on the force-Groq path even though
the secondary produced the result, false when the secondary itself raised
(the orchestrator then builds the error result), false on every
primary-produced result, and false on the no-provider result. -/
theorem C4_fallback_flag_amended :
    (∀ (r : AgentResult) (gm : Option Outcome),
      run_agent gm (some (.ok r)) true = .ok { r with fallback_used := false }) ∧
    (∀ (w : World) (p : GeminiProvider) (query : String) (gq : Option Outcome),
      run_agent (some (.ok (geminiRun w p query))) gq false = .ok (geminiRun w p query) ∧
      (geminiRun w p query).fallback_used = false) ∧
    (∀ (m : String) (gq : Option Outcome), isQuota m = false →
      run_agent (some (.exn m)) gq false = .ok (errResult m "gemini") ∧
      (errResult m "gemini").fallback_used = false) ∧
    (∀ (m : String) (r : AgentResult), isQuota m = true →
      run_agent (some (.exn m)) (some (.ok r)) false = .ok { r with fallback_used := true } ∧
      ({ r with fallback_used := true } : AgentResult).fallback_used = true) ∧
    (∀ (m m2 : String), isQuota m = true →
      run_agent (some (.exn m)) (some (.exn m2)) false = .ok (errResult m2 "groq") ∧
      (errResult m2 "groq").fallback_used = false) ∧
    (∀ (r : AgentResult), run_agent none (some (.ok r)) false = .ok { r with fallback_used := true }) ∧
    (∀ (m2 : String), run_agent none (some (.exn m2)) false = .ok (errResult m2 "groq")) ∧
    (∀ (f : Bool), run_agent none none f = .ok noProviderResult ∧
      noProviderResult.fallback_used = false) := by
  refine ⟨fun r gm => rfl, ?_, ?_, ?_, ?_, fun r => rfl, fun m2 => rfl, ?_⟩
  · intro w p query gq
    exact ⟨rfl, (geminiLoop_fields w p MAX_STEPS 0 _ _).2⟩
  · intro m gq h
    have hn : ¬ isQuota m = true := by simp [h]
    constructor
    · show geminiPhase (some (.exn m)) gq = _
      rw [geminiPhase, if_neg hn]
    · rfl
  · intro m r h
    constructor
    · show geminiPhase (some (.exn m)) (some (.ok r)) = _
      rw [geminiPhase, if_pos h]
      rfl
    · rfl
  · intro m m2 h
    constructor
    · show geminiPhase (some (.exn m)) (some (.exn m2)) = _
      rw [geminiPhase, if_pos h]
      rfl
    · rfl
  · intro f
    cases f <;> exact ⟨rfl, rfl⟩

/-- C4 witness: a quota-classified primary failure followed by a
successful secondary run flips the flag to true on the secondary's
result. -/
theorem C4_witness :
    run_agent (some (.exn "quota exceeded"))
        (some (.ok { answer := "a", tool_log := [], model := "m", provider := "groq",
                     fallback_used := false, error := none })) false =
      .ok { answer := "a", tool_log := [], model := "m", provider := "groq",
            fallback_used := true, error := none } :=
  (C4_fallback_flag_amended.2.2.2.1 "quota exceeded"
    { answer := "a", tool_log := [], model := "m", provider := "groq",
      fallback_used := false, error := none } (by decide)).1

/-! ## Claim C1 -/

/-- C1: with both agents configured and the force flag unset, a primary
exception whose message contains one of the five case-sensitive quota
keywords routes the query to the secondary, returning the secondary's
result with `fallback_used := true` and the secondary's provider id; a
message containing none of them yields an error result carrying the
exception message, and the returned result does not depend on the
secondary at all (it is never invoked). -/
theorem C1_quota_fallback_classification (m : String) (w : World) (qprov : GroqProvider)
    (query : String) :
    ((∃ kw ∈ QUOTA_KEYWORDS, pyIn kw m = true) →
      run_agent (some (.exn m)) (some (.ok (groqRun w qprov query))) false =
        .ok { groqRun w qprov query with fallback_used := true } ∧
      (groqRun w qprov query).provider = "groq") ∧
    ((∀ kw ∈ QUOTA_KEYWORDS, pyIn kw m = false) →
      ∀ gq : Option Outcome,
        run_agent (some (.exn m)) gq false = .ok (errResult m "gemini")) := by
  constructor
  · intro hq
    have hquota : isQuota m = true := by
      rw [isQuota, List.any_eq_true]
      obtain ⟨kw, h1, h2⟩ := hq
      exact ⟨kw, h1, h2⟩
    constructor
    · show geminiPhase (some (.exn m)) _ = _
      rw [geminiPhase, if_pos hquota]
      rfl
    · exact (groqLoop_fields w qprov MAX_STEPS 0 _ _).1
  · intro hnq gq
    have hquota : ¬ isQuota m = true := by
      rw [isQuota, List.any_eq_true]
      rintro ⟨kw, h1, h2⟩
      rw [hnq kw h1] at h2
      cases h2
    show geminiPhase (some (.exn m)) gq = _
    rw [geminiPhase, if_neg hquota]

/-- C1 witness: the spec's scenario message `"429 RESOURCE_EXHAUSTED"`
falls back to a concrete secondary run; a non-quota message surfaces as
the error result without consulting the secondary. -/
theorem C1_witness :
    (run_agent (some (.exn "429 RESOURCE_EXHAUSTED"))
        (some (.ok (groqRun (fun _ => none) (fun _ => ⟨⟨some "groq answer", []⟩, "stop"⟩) "q"))) false =
      .ok { groqRun (fun _ => none) (fun _ => ⟨⟨some "groq answer", []⟩, "stop"⟩) "q" with
            fallback_used := true }) ∧
    (groqRun (fun _ => none) (fun _ => ⟨⟨some "groq answer", []⟩, "stop"⟩) "q").provider = "groq" ∧
    run_agent (some (.exn "connection reset")) none false = .ok (errResult "connection reset" "gemini") := by
  refine ⟨?_, ?_, ?_⟩
  · exact ((C1_quota_fallback_classification "429 RESOURCE_EXHAUSTED" (fun _ => none)
      (fun _ => ⟨⟨some "groq answer", []⟩, "stop"⟩) "q").1 (by decide)).1
  · exact ((C1_quota_fallback_classification "429 RESOURCE_EXHAUSTED" (fun _ => none)
      (fun _ => ⟨⟨some "groq answer", []⟩, "stop"⟩) "q").1 (by decide)).2
  · exact (C1_quota_fallback_classification "connection reset" (fun _ => none)
      (fun _ => ⟨⟨some "x", []⟩, "stop"⟩) "q").2 (by decide) none

/-! ## Claim C3 -/

/-- C3: a provider turn carrying N tool-call requests makes the loop
dispatch all N calls and append exactly N entries to the tool log, in
presentation order, each stamped with the 1-indexed loop iteration — in
both agent loops the iteration rewrites to the recursive call whose log is
the old log extended by the mapped call list, and whose conversation state
gains the dispatched results. -/
theorem C3_tool_log_growth :
    (∀ (w : World) (prov : GeminiProvider) (step fuel : ℕ)
      (contents : List GContent) (log : List LogEntry),
      extractCalls (prov step) ≠ [] →
        geminiLoop w prov step (fuel + 1) contents log =
          geminiLoop w prov (step + 1) fuel
            (contents ++ [GContent.model (prov step),
              GContent.tool ((extractCalls (prov step)).map
                (fun c => (c.name, dispatch w c.name c.args)))])
            (log ++ (extractCalls (prov step)).map
              (fun c => { step := step + 1, tool := c.name, args := c.args })) ∧
        (log ++ (extractCalls (prov step)).map
          (fun c => ({ step := step + 1, tool := c.name, args := c.args } : LogEntry))).length =
          log.length + (extractCalls (prov step)).length) ∧
    (∀ (w : World) (prov : GroqProvider) (step fuel : ℕ)
      (msgs : List ChatMsg) (log : List LogEntry),
      (prov step).finish_reason = "tool_calls" ∧ (prov step).message.tool_calls ≠ [] →
        groqLoop w prov step (fuel + 1) msgs log =
          groqLoop w prov (step + 1) fuel
            ((msgs ++ [ChatMsg.assistant (prov step).message]) ++
              (prov step).message.tool_calls.map
                (fun tc => ChatMsg.tool tc.id (dispatch w tc.name tc.args)))
            (log ++ (prov step).message.tool_calls.map
              (fun tc => { step := step + 1, tool := tc.name, args := tc.args })) ∧
        (log ++ (prov step).message.tool_calls.map
          (fun tc => ({ step := step + 1, tool := tc.name, args := tc.args } : LogEntry))).length =
          log.length + (prov step).message.tool_calls.length) := by
  constructor
  · intro w prov step fuel contents log h
    refine ⟨?_, by simp⟩
    rw [geminiLoop, if_neg h]
  · intro w prov step fuel msgs log h
    refine ⟨?_, by simp⟩
    rw [groqLoop, if_pos h]

/-- Provider behaviour used by the C3 witness: one turn carrying two tool
calls. -/
def c3Prov : GeminiProvider := fun _ =>
  [⟨some ⟨"get_tata_cars", [("budget_min_lakhs", .vint 10), ("budget_max_lakhs", .vint 16)]⟩, none⟩,
   ⟨some ⟨"get_fuel_price", [("city", .vstr "Pune"), ("fuel_type", .vstr "Diesel")]⟩, some "and text"⟩]

/-- C3 witness: a concrete two-call Gemini turn appends exactly its two
log entries, stamped with iteration 1. -/
theorem C3_witness :
    geminiLoop (fun _ => none) c3Prov 0 4 [] [] =
      geminiLoop (fun _ => none) c3Prov 1 3
        ([] ++ [GContent.model (c3Prov 0),
          GContent.tool ((extractCalls (c3Prov 0)).map
            (fun c => (c.name, dispatch (fun _ => none) c.name c.args)))])
        ([] ++ (extractCalls (c3Prov 0)).map
          (fun c => { step := 1, tool := c.name, args := c.args })) :=
  ((C3_tool_log_growth.1 (fun _ => none) c3Prov 0 3 [] []) (by decide)).1

/-! ## Claim C9 -/

/-- C9: a turn carrying both tool calls and text is processed as a
tool-call turn, never as a final answer.  The Gemini loop recurses
whenever any part carries a `function_call`, whatever the accompanying
text parts; the Groq loop executes tools exactly when the finish reason is
`"tool_calls"` and the tool-call list is non-empty, and otherwise returns
any non-empty message content as the final answer (its tool log and
accumulated state unchanged). -/
theorem C9_mixed_turn_precedence :
    (∀ (w : World) (prov : GeminiProvider) (step fuel : ℕ)
      (contents : List GContent) (log : List LogEntry),
      extractCalls (prov step) ≠ [] →
        geminiLoop w prov step (fuel + 1) contents log =
          geminiLoop w prov (step + 1) fuel
            (contents ++ [GContent.model (prov step),
              GContent.tool ((extractCalls (prov step)).map
                (fun c => (c.name, dispatch w c.name c.args)))])
            (log ++ (extractCalls (prov step)).map
              (fun c => { step := step + 1, tool := c.name, args := c.args }))) ∧
    (∀ (w : World) (prov : GroqProvider) (step fuel : ℕ)
      (msgs : List ChatMsg) (log : List LogEntry),
      (prov step).finish_reason = "tool_calls" → (prov step).message.tool_calls ≠ [] →
        groqLoop w prov step (fuel + 1) msgs log =
          groqLoop w prov (step + 1) fuel
            ((msgs ++ [ChatMsg.assistant (prov step).message]) ++
              (prov step).message.tool_calls.map
                (fun tc => ChatMsg.tool tc.id (dispatch w tc.name tc.args)))
            (log ++ (prov step).message.tool_calls.map
              (fun tc => { step := step + 1, tool := tc.name, args := tc.args }))) ∧
    (∀ (w : World) (prov : GroqProvider) (step fuel : ℕ)
      (msgs : List ChatMsg) (log : List LogEntry) (c : String),
      ¬ ((prov step).finish_reason = "tool_calls" ∧ (prov step).message.tool_calls ≠ []) →
      (prov step).message.content = some c → c ≠ "" →
        groqLoop w prov step (fuel + 1) msgs log = groqFinal c log) := by
  refine ⟨?_, ?_, ?_⟩
  · intro w prov step fuel contents log h
    rw [geminiLoop, if_neg h]
  · intro w prov step fuel msgs log h1 h2
    rw [groqLoop, if_pos ⟨h1, h2⟩]
  · intro w prov step fuel msgs log c h hc hcne
    rw [groqLoop, if_neg h, hc]
    show (if c = "" then groqExhausted log else groqFinal c log) = groqFinal c log
    rw [if_neg hcne]

/-- Provider behaviour used by the C9 witness: a Groq message carrying
both non-empty content and a tool-call list, but a non-tool finish
reason. -/
def c9QProv : GroqProvider := fun _ =>
  ⟨⟨some "the answer", [⟨"call_1", "get_city_weather", [("city", .vstr "Pune")]⟩]⟩, "stop"⟩

/-- Provider behaviour used by the C9 witness: a Gemini turn with both a
function call and a text part. -/
def c9GProv : GeminiProvider := fun _ =>
  [⟨some ⟨"get_city_weather", [("city", .vstr "Pune")]⟩, some "let me check"⟩]

/-- C9 witness: the mixed Groq turn with finish reason `"stop"` returns
its content as the final answer; the mixed Gemini turn is processed as a
tool turn. -/
theorem C9_witness :
    groqLoop (fun _ => none) c9QProv 0 5 [] [] = groqFinal "the answer" [] ∧
    geminiLoop (fun _ => none) c9GProv 0 5 [] [] =
      geminiLoop (fun _ => none) c9GProv 1 4
        ([] ++ [GContent.model (c9GProv 0),
          GContent.tool ((extractCalls (c9GProv 0)).map
            (fun c => (c.name, dispatch (fun _ => none) c.name c.args)))])
        ([] ++ (extractCalls (c9GProv 0)).map
          (fun c => { step := 1, tool := c.name, args := c.args })) :=
  ⟨C9_mixed_turn_precedence.2.2 (fun _ => none) c9QProv 0 4 [] [] "the answer"
      (by decide) rfl (by decide),
   C9_mixed_turn_precedence.1 (fun _ => none) c9GProv 0 4 [] [] (by decide)⟩

/-! ## Claim C2 -/

/-- The Gemini loop consults the provider only at steps below
`step + fuel`: agreeing behaviours give equal runs. -/
theorem geminiLoop_congr (w : World) (p p2 : GeminiProvider) :
    ∀ (fuel step : ℕ) (contents : List GContent) (log : List LogEntry),
      (∀ i, step ≤ i → i < step + fuel → p i = p2 i) →
      geminiLoop w p step fuel contents log = geminiLoop w p2 step fuel contents log := by
  intro fuel
  induction fuel with
  | zero => intro step contents log _; rfl
  | succ n ih =>
      intro step contents log h
      have h0 : p step = p2 step := h step le_rfl (by omega)
      rw [geminiLoop, geminiLoop, h0]
      split
      · rfl
      · exact ih (step + 1) _ _ (fun i h1 h2 => h i (by omega) (by omega))

/-- A Gemini provider that answers every consulted step with tool calls
drives the loop to the exhaustion result. -/
theorem geminiLoop_all_tools (w : World) (p : GeminiProvider) :
    ∀ (fuel step : ℕ) (contents : List GContent) (log : List LogEntry),
      (∀ i, step ≤ i → i < step + fuel → extractCalls (p i) ≠ []) →
      (geminiLoop w p step fuel contents log).answer = EXHAUST_MSG ∧
      (geminiLoop w p step fuel contents log).error = none := by
  intro fuel
  induction fuel with
  | zero => intro step contents log _; exact ⟨rfl, rfl⟩
  | succ n ih =>
      intro step contents log h
      have h0 : extractCalls (p step) ≠ [] := h step le_rfl (by omega)
      rw [geminiLoop, if_neg h0]
      exact ih (step + 1) _ _ (fun i h1 h2 => h i (by omega) (by omega))

/-- A Gemini turn with neither tool calls and no (non-empty) text, after
tool-call turns only, drives the loop to the exhaustion result. -/
theorem geminiLoop_empty_turn (w : World) (p : GeminiProvider) :
    ∀ (fuel step k : ℕ) (contents : List GContent) (log : List LogEntry),
      step ≤ k → k < step + fuel →
      (∀ i, step ≤ i → i < k → extractCalls (p i) ≠ []) →
      extractCalls (p k) = [] → extractTexts (p k) = [] →
      (geminiLoop w p step fuel contents log).answer = EXHAUST_MSG ∧
      (geminiLoop w p step fuel contents log).error = none := by
  intro fuel
  induction fuel with
  | zero => intro step k contents log h1 h2 _ _ _; omega
  | succ n ih =>
      intro step k contents log h1 h2 htools hcalls htexts
      by_cases hk : k = step
      · subst hk
        rw [geminiLoop, if_pos hcalls, if_pos htexts]
        exact ⟨rfl, rfl⟩
      · have hstep : extractCalls (p step) ≠ [] := htools step le_rfl (by omega)
        rw [geminiLoop, if_neg hstep]
        exact ih (step + 1) k _ _ (by omega) (by omega)
          (fun i hi1 hi2 => htools i (by omega) hi2) hcalls htexts

/-- The Groq loop consults the provider only at steps below
`step + fuel`: agreeing behaviours give equal runs. -/
theorem groqLoop_congr (w : World) (p p2 : GroqProvider) :
    ∀ (fuel step : ℕ) (msgs : List ChatMsg) (log : List LogEntry),
      (∀ i, step ≤ i → i < step + fuel → p i = p2 i) →
      groqLoop w p step fuel msgs log = groqLoop w p2 step fuel msgs log := by
  intro fuel
  induction fuel with
  | zero => intro step msgs log _; rfl
  | succ n ih =>
      intro step msgs log h
      have h0 : p step = p2 step := h step le_rfl (by omega)
      rw [groqLoop, groqLoop, h0]
      split
      · exact ih (step + 1) _ _ (fun i h1 h2 => h i (by omega) (by omega))
      · rfl

/-- A Groq provider that answers every consulted step with a tool-call
turn drives the loop to the exhaustion result. -/
theorem groqLoop_all_tools (w : World) (p : GroqProvider) :
    ∀ (fuel step : ℕ) (msgs : List ChatMsg) (log : List LogEntry),
      (∀ i, step ≤ i → i < step + fuel →
        (p i).finish_reason = "tool_calls" ∧ (p i).message.tool_calls ≠ []) →
      (groqLoop w p step fuel msgs log).answer = EXHAUST_MSG ∧
      (groqLoop w p step fuel msgs log).error = none := by
  intro fuel
  induction fuel with
  | zero => intro step msgs log _; exact ⟨rfl, rfl⟩
  | succ n ih =>
      intro step msgs log h
      have h0 := h step le_rfl (by omega)
      rw [groqLoop, if_pos h0]
      exact ih (step + 1) _ _ (fun i h1 h2 => h i (by omega) (by omega))

/-- A Groq turn with neither a tool-call turn nor non-empty content,
after tool-call turns only, drives the loop to the exhaustion result. -/
theorem groqLoop_empty_turn (w : World) (p : GroqProvider) :
    ∀ (fuel step k : ℕ) (msgs : List ChatMsg) (log : List LogEntry),
      step ≤ k → k < step + fuel →
      (∀ i, step ≤ i → i < k →
        (p i).finish_reason = "tool_calls" ∧ (p i).message.tool_calls ≠ []) →
      ¬ ((p k).finish_reason = "tool_calls" ∧ (p k).message.tool_calls ≠ []) →
      ((p k).message.content = none ∨ (p k).message.content = some "") →
      (groqLoop w p step fuel msgs log).answer = EXHAUST_MSG ∧
      (groqLoop w p step fuel msgs log).error = none := by
  intro fuel
  induction fuel with
  | zero => intro step k msgs log h1 h2 _ _ _; omega
  | succ n ih =>
      intro step k msgs log h1 h2 htools hnot hcontent
      by_cases hk : k = step
      · subst hk
        rw [groqLoop, if_neg hnot]
        rcases hcontent with hc | hc
        · rw [hc]; exact ⟨rfl, rfl⟩
        · rw [hc]
          show ((if "" = "" then groqExhausted log else groqFinal "" log).answer = _) ∧ _
          rw [if_pos rfl]
          exact ⟨rfl, rfl⟩
      · have hstep := htools step le_rfl (by omega)
        rw [groqLoop, if_pos hstep]
        exact ih (step + 1) k _ _ (by omega) (by omega)
          (fun i hi1 hi2 => htools i (by omega) hi2) hnot hcontent

/-- C2: both agent loops terminate within the 12-iteration ceiling for
every provider behaviour — the run is determined by the first 12 responses
alone; a behaviour whose first 12 consulted turns are all tool-call turns
ends in the exhaustion result (fixed answer, `error = none`), and so does a
turn yielding neither tool calls nor (non-empty) text after any run of
tool-call turns. -/
theorem C2_loop_termination :
    (∀ (w : World) (p p2 : GeminiProvider) (query : String),
      (∀ i, i < MAX_STEPS → p i = p2 i) → geminiRun w p query = geminiRun w p2 query) ∧
    (∀ (w : World) (p : GeminiProvider) (query : String),
      (∀ i, i < MAX_STEPS → extractCalls (p i) ≠ []) →
      (geminiRun w p query).answer = EXHAUST_MSG ∧ (geminiRun w p query).error = none) ∧
    (∀ (w : World) (p : GeminiProvider) (query : String) (k : ℕ),
      k < MAX_STEPS → (∀ i, i < k → extractCalls (p i) ≠ []) →
      extractCalls (p k) = [] → extractTexts (p k) = [] →
      (geminiRun w p query).answer = EXHAUST_MSG ∧ (geminiRun w p query).error = none) ∧
    (∀ (w : World) (p p2 : GroqProvider) (query : String),
      (∀ i, i < MAX_STEPS → p i = p2 i) → groqRun w p query = groqRun w p2 query) ∧
    (∀ (w : World) (p : GroqProvider) (query : String),
      (∀ i, i < MAX_STEPS →
        (p i).finish_reason = "tool_calls" ∧ (p i).message.tool_calls ≠ []) →
      (groqRun w p query).answer = EXHAUST_MSG ∧ (groqRun w p query).error = none) ∧
    (∀ (w : World) (p : GroqProvider) (query : String) (k : ℕ),
      k < MAX_STEPS →
      (∀ i, i < k → (p i).finish_reason = "tool_calls" ∧ (p i).message.tool_calls ≠ []) →
      ¬ ((p k).finish_reason = "tool_calls" ∧ (p k).message.tool_calls ≠ []) →
      ((p k).message.content = none ∨ (p k).message.content = some "") →
      (groqRun w p query).answer = EXHAUST_MSG ∧ (groqRun w p query).error = none) := by
  refine ⟨?_, ?_, ?_, ?_, ?_, ?_⟩
  · intro w p p2 query h
    exact geminiLoop_congr w p p2 MAX_STEPS 0 _ _ (fun i _ h2 => h i (by omega))
  · intro w p query h
    exact geminiLoop_all_tools w p MAX_STEPS 0 _ _ (fun i _ h2 => h i (by omega))
  · intro w p query k hk h1 h2 h3
    exact geminiLoop_empty_turn w p MAX_STEPS 0 k _ _ (by omega) (by omega)
      (fun i _ hi => h1 i hi) h2 h3
  · intro w p p2 query h
    exact groqLoop_congr w p p2 MAX_STEPS 0 _ _ (fun i _ h2 => h i (by omega))
  · intro w p query h
    exact groqLoop_all_tools w p MAX_STEPS 0 _ _ (fun i _ h2 => h i (by omega))
  · intro w p query k hk h1 h2 h3
    exact groqLoop_empty_turn w p MAX_STEPS 0 k _ _ (by omega) (by omega)
      (fun i _ hi => h1 i hi) h2 h3

/-- Always-tool-calling Gemini behaviour used by the C2 witness. -/
def c2GProv : GeminiProvider := fun _ =>
  [⟨some ⟨"get_city_weather", [("city", .vstr "Delhi")]⟩, none⟩]

/-- Always-tool-calling Groq behaviour used by the C2 witness. -/
def c2QProv : GroqProvider := fun _ =>
  ⟨⟨none, [⟨"call_1", "get_city_weather", [("city", .vstr "Delhi")]⟩]⟩, "tool_calls"⟩

/-- C2 witness: the spec's simulation — providers that always return tool
calls stop at the ceiling with the exhaustion answer and no error, in both
loops. -/
theorem C2_witness :
    ((geminiRun (fun _ => none) c2GProv "q").answer = EXHAUST_MSG ∧
      (geminiRun (fun _ => none) c2GProv "q").error = none) ∧
    ((groqRun (fun _ => none) c2QProv "q").answer = EXHAUST_MSG ∧
      (groqRun (fun _ => none) c2QProv "q").error = none) :=
  ⟨C2_loop_termination.2.1 (fun _ => none) c2GProv "q" (fun _ _ =>
      (by decide : extractCalls
        [⟨some ⟨"get_city_weather", [("city", .vstr "Delhi")]⟩, none⟩] ≠ [])),
   C2_loop_termination.2.2.2.2.1 (fun _ => none) c2QProv "q" (fun _ _ =>
      (by decide : (GroqResponse.mk
          ⟨none, [⟨"call_1", "get_city_weather", [("city", .vstr "Delhi")]⟩]⟩
          "tool_calls").finish_reason = "tool_calls" ∧
        (GroqResponse.mk
          ⟨none, [⟨"call_1", "get_city_weather", [("city", .vstr "Delhi")]⟩]⟩
          "tool_calls").message.tool_calls ≠ []))⟩

/-! ## Claim C10 -/

/-- A key occurring among an association list's first components has a
successful lookup. -/
theorem lookup_isSome_of_fst_mem {l : List (String × ℚ)} {k : String}
    (h : k ∈ l.map Prod.fst) : (l.lookup k).isSome := by
  rw [List.lookup_isSome_iff]
  obtain ⟨p, hp, hfst⟩ := List.mem_map.mp h
  exact ⟨p, hp, by rw [beq_iff_eq]; exact hfst.symm⟩

/-- The normalised fuel key is always one of the three table keys. -/
theorem normFuelKey_mem (ft : String) :
    normFuelKey ft = "Petrol" ∨ normFuelKey ft = "Diesel" ∨ normFuelKey ft = "CNG" := by
  rw [normFuelKey]
  cases h1 : (pyLower ft == "petrol") <;> cases h2 : (pyLower ft == "diesel") <;>
    cases h3 : (pyLower ft == "cng") <;> simp [List.lookup, h1, h2, h3]

/-- C10: `get_fuel_price` is total — for every city and fuel type it
returns a priced record, never a not-found indication.  The record's
`fuel_type` is the normalised key (one of Petrol/Diesel/CNG); an
unrecognised fuel type normalises to `"Petrol"`; and when no table key
occurs case-insensitively in the city string, the table's `"DEFAULT"`
price is used. -/
theorem C10_fuel_price_total (city ft : String) :
    ∃ rec, get_fuel_price city ft = some rec ∧
      rec.fuel_type = normFuelKey ft ∧
      (normFuelKey ft = "Petrol" ∨ normFuelKey ft = "Diesel" ∨ normFuelKey ft = "CNG") ∧
      (¬ (pyLower ft = "petrol" ∨ pyLower ft = "diesel" ∨ pyLower ft = "cng") →
        normFuelKey ft = "Petrol") ∧
      ((∀ k ∈ (fuelTableOf ft).map Prod.fst, pyInCI k city = false) →
        ∃ dflt, (fuelTableOf ft).lookup "DEFAULT" = some dflt ∧
          rec.price_per_litre = dflt) := by
  have hks : ((fuelTableOf ft).lookup (cityKeyOf ft city)).isSome := by
    cases hf : ((fuelTableOf ft).map Prod.fst).find? (fun k => pyInCI k city) with
    | some k =>
        have hck : cityKeyOf ft city = k := by rw [cityKeyOf, hf]; rfl
        rw [hck]
        exact lookup_isSome_of_fst_mem (List.mem_of_find?_eq_some hf)
    | none =>
        have hck : cityKeyOf ft city = "DEFAULT" := by rw [cityKeyOf, hf]; rfl
        rw [hck]
        apply lookup_isSome_of_fst_mem
        rcases normFuelKey_mem ft with h | h | h <;> rw [fuelTableOf, h] <;> decide
  obtain ⟨ppl, hp⟩ := Option.isSome_iff_exists.mp hks
  refine ⟨mkFuelRec city ft ppl, ?_, rfl, normFuelKey_mem ft, ?_, ?_⟩
  · show (match (fuelTableOf ft).lookup (cityKeyOf ft city) with
      | none => none
      | some ppl => some (mkFuelRec city ft ppl)) = some (mkFuelRec city ft ppl)
    rw [hp]
  · intro h
    have hnone : (([("petrol", "Petrol"), ("diesel", "Diesel"), ("cng", "CNG")] :
        List (String × String)).lookup (pyLower ft)) = none := by
      rw [List.lookup_eq_none_iff]
      intro p hpmem
      simp only [List.mem_cons, List.not_mem_nil, or_false] at hpmem
      rcases hpmem with rfl | rfl | rfl <;>
        simp only [bne_iff_ne, ne_eq] <;> intro hcontra <;> exact h (by simp [hcontra])
    rw [normFuelKey, hnone]
    rfl
  · intro hall
    have hf : ((fuelTableOf ft).map Prod.fst).find? (fun k => pyInCI k city) = none := by
      rw [List.find?_eq_none]
      intro k hk
      rw [hall k hk]
      decide
    have hck : cityKeyOf ft city = "DEFAULT" := by rw [cityKeyOf, hf]; rfl
    rw [hck] at hp
    exact ⟨ppl, hp, rfl⟩

/-- C10 witness: an unknown city and an unrecognised fuel type get the
Petrol table's default price. -/
theorem C10_witness :
    (get_fuel_price "Gotham" "hydrogen").isSome = true ∧
    (get_fuel_price "Gotham" "hydrogen").map FuelRec.fuel_type = some "Petrol" ∧
    (get_fuel_price "Gotham" "hydrogen").map FuelRec.price_per_litre = some 100 := by
  obtain ⟨rec, h1, h2, h3, h4, h5⟩ := C10_fuel_price_total "Gotham" "hydrogen"
  have hnf : normFuelKey "hydrogen" = "Petrol" := h4 (by decide)
  obtain ⟨dflt, hdl, hpp⟩ := h5 (by decide)
  have h100 : (fuelTableOf "hydrogen").lookup "DEFAULT" = some 100 := by decide
  have hdv : dflt = 100 := by
    have := hdl.symm.trans h100
    exact Option.some.inj this
  refine ⟨by rw [h1]; rfl, ?_, ?_⟩
  · rw [h1, Option.map_some']
    rw [h2, hnf]
  · rw [h1, Option.map_some']
    rw [hpp, hdv]

/-! ## Claim C6 -/

/-- With pairwise-distinct first components, a pair's first component
survives a filter-then-project exactly when the pair satisfies the
filter. -/
theorem fst_mem_filter_iff {α β : Type} {l : List (α × β)}
    (hnd : (l.map Prod.fst).Nodup) {e : α × β} (he : e ∈ l) (p : α × β → Bool) :
    e.1 ∈ (l.filter p).map Prod.fst ↔ p e = true := by
  constructor
  · intro h
    obtain ⟨e2, he2, hfst⟩ := List.mem_map.mp h
    obtain ⟨he2l, hpe2⟩ := List.mem_filter.mp he2
    have : e2 = e := List.inj_on_of_nodup_map hnd he2l he hfst
    rw [← this]
    exact hpe2
  · intro h
    exact List.mem_map.mpr ⟨e, List.mem_filter.mpr ⟨he, h⟩, rfl⟩

/-- The `carPred` filter, spelled out as a proposition. -/
theorem carPred_iff (bmin bmax : ℚ) (fuel : String) (min_seats : ℚ) (s : CarSpec) :
    carPred bmin bmax fuel min_seats s = true ↔
      (¬ s.price_min > bmax ∧ ¬ s.price_max < bmin ∧
       ((pyLower fuel = "any" ∨ pyLower fuel = "no preference") ∨
         s.fuel_types.any (fun f => pyInCI fuel f) = true) ∧
       ¬ (s.seats : ℚ) < min_seats) := by
  rw [carPred]
  simp only [Bool.and_eq_true, Bool.or_eq_true, Bool.not_eq_true', decide_eq_false_iff_not,
    decide_eq_true_eq, and_assoc]

/-- The names `get_tata_cars` returns are the database names surviving
the filter. -/
theorem get_tata_cars_names (bmin bmax : ℚ) (fuel : String) (min_seats : ℚ) :
    (get_tata_cars bmin bmax fuel min_seats).matching_cars.map CarMatch.name =
      (TATA_CARS_DB.filter (fun e => carPred bmin bmax fuel min_seats e.2)).map Prod.fst := by
  rw [get_tata_cars]
  show ((TATA_CARS_DB.filter _).map _).map CarMatch.name = _
  rw [List.map_map]
  congr 1

/-- C6: a database car appears in the `get_tata_cars` result exactly when
its price interval overlaps the budget interval (excluded iff
`price_min > budget_max` or `price_max < budget_min`), its fuel list
contains the preference as a case-insensitive substring unless the
lowered preference is `any`/`no preference`, and its seat count is at
least `min_seats`; in particular at `(10, 16, "Petrol", 4)` the Nexon
(priced 8.10–15.50, petrol, 5 seats) is included and the Safari (priced
16.19–27.34) is excluded. -/
theorem C6_car_filter :
    (∀ (bmin bmax : ℚ) (fuel : String) (min_seats : ℚ) (name : String) (s : CarSpec),
      TATA_CARS_DB.lookup name = some s →
      (name ∈ (get_tata_cars bmin bmax fuel min_seats).matching_cars.map CarMatch.name ↔
        (¬ s.price_min > bmax ∧ ¬ s.price_max < bmin ∧
         ((pyLower fuel = "any" ∨ pyLower fuel = "no preference") ∨
           s.fuel_types.any (fun f => pyInCI fuel f) = true) ∧
         ¬ (s.seats : ℚ) < min_seats))) ∧
    "Tata Nexon" ∈ (get_tata_cars 10 16 "Petrol" 4).matching_cars.map CarMatch.name ∧
    ¬ "Tata Safari" ∈ (get_tata_cars 10 16 "Petrol" 4).matching_cars.map CarMatch.name := by
  refine ⟨?_, by decide, by decide⟩
  intro bmin bmax fuel min_seats name s hlk
  have hmem : (name, s) ∈ TATA_CARS_DB := pair_mem_of_lookup hlk
  have hnd : (TATA_CARS_DB.map Prod.fst).Nodup := by decide
  rw [get_tata_cars_names]
  rw [show name = (name, s).1 from rfl,
    fst_mem_filter_iff hnd hmem (fun e => carPred bmin bmax fuel min_seats e.2)]
  exact carPred_iff bmin bmax fuel min_seats s

/-- C6 witness: the scenario instance — Nexon included and Safari
excluded at budget 10–16, petrol, 4 seats — obtained through the filter
characterisation. -/
theorem C6_witness :
    "Tata Nexon" ∈ (get_tata_cars 10 16 "Petrol" 4).matching_cars.map CarMatch.name ∧
    "Tata Safari" ∉ (get_tata_cars 10 16 "Petrol" 4).matching_cars.map CarMatch.name := by
  constructor
  · exact (C6_car_filter.1 10 16 "Petrol" 4 "Tata Nexon" nexonSpec rfl).mpr (by decide)
  · intro h
    have hc := (C6_car_filter.1 10 16 "Petrol" 4 "Tata Safari" safariSpec rfl).mp h
    exact hc.1 (by decide)
